import Mathlib

/-!
Verification of the chat-session transcript model of `src/main.py`
(a Streamlit + LangChain + Groq chatbot).

The embedding translates the session-state logic of `main.py`:
the role-tagged transcript held in `st.session_state.messages`, the
request construction of `get_ai_response`, the input handler guarded by
the walrus-truthiness test on `st.chat_input`, the clear-history button,
the sidebar statistics, and the `load_llm` startup credential check.
The external LLM collaborator (`llm.invoke`) is modelled as an opaque
function from a request (a list of chat messages) to either a reply
string or an error (a raised exception in the Python source).
-/

/-- The role tag of a transcript entry (`message["role"]` in `main.py`). -/
inductive Role where
  | user
  | assistant
  deriving DecidableEq, Repr

/-- One transcript entry: `{"role": ..., "content": ...}` in `main.py`. -/
structure Turn where
  role : Role
  content : String
  deriving DecidableEq, Repr

/-- The in-memory transcript, `st.session_state.messages`. -/
abbrev Transcript := List Turn

/-- A chat message sent to the model: `SystemMessage` or `HumanMessage`
from `langchain_core.messages`. -/
inductive Message where
  | system (content : String)
  | human (content : String)
  deriving DecidableEq, Repr

/-- The external model collaborator (`llm.invoke` followed by reading
`response.content`): a request either yields a reply string or raises. -/
abbrev Gateway := List Message → Except String String

/-- The fixed system instruction of `get_ai_response` (main.py line 35). -/
def systemInstruction : String :=
  "You are a helpful AI assistant. Answer the user's questions clearly and concisely."

/-- The `messages` list built by `get_ai_response` (main.py lines 34-37):
the fixed system instruction followed by the single latest user message. -/
def requestMessages (user_message : String) : List Message :=
  [Message.system systemInstruction, Message.human user_message]

/-- `get_ai_response` (main.py lines 33-39): sends the two-message request
to the collaborator and returns its text reply (or propagates failure). -/
def get_ai_response (user_message : String) (llm : Gateway) : Except String String :=
  llm (requestMessages user_message)

/-- The chat-input handler (main.py lines 67-78), instrumented with the
list of requests issued to the Gateway during the turn.
`st.chat_input` yields `none` when nothing was submitted; the walrus
`if prompt := ...` also rejects the falsy empty string.  On a truthy
prompt the user turn is appended, `get_ai_response` is called, and on
success the assistant turn is appended; a raised exception leaves the
transcript with only the user turn appended (line 78 never runs). -/
def handleInputTraced (llm : Gateway) (messages : Transcript)
    (chatInput : Option String) : Transcript × List (List Message) :=
  match chatInput with
  | none => (messages, [])
  | some prompt =>
    if prompt = "" then (messages, [])
    else
      let messages1 := messages ++ [⟨Role.user, prompt⟩]
      match get_ai_response prompt llm with
      | Except.ok response => (messages1 ++ [⟨Role.assistant, response⟩], [requestMessages prompt])
      | Except.error _ => (messages1, [requestMessages prompt])

/-- The transcript after the chat-input handler runs (main.py lines 67-78). -/
def handleInput (llm : Gateway) (messages : Transcript) (chatInput : Option String) : Transcript :=
  (handleInputTraced llm messages chatInput).1

/-- The clear-history button (main.py lines 91-93):
`st.session_state.messages = []`. -/
def clearHistory (_messages : Transcript) : Transcript := []

/-- Sidebar statistic "Messages in Chat" (main.py line 97). -/
def messageCount (messages : Transcript) : Nat := messages.length

/-- Sidebar statistic "Questions Asked" (main.py line 100):
`len([msg for msg in messages if msg["role"] == "user"])`. -/
def countByRole (r : Role) (messages : Transcript) : Nat :=
  (messages.filter (fun msg => decide (msg.role = r))).length

/-- The `ChatGroq` client value built by `load_llm` (main.py lines 27-31). -/
structure ChatGroq where
  model : String
  temperature : Float
  api_key : String

/-- The fatal startup failure: `st.error` + `st.stop()` in `load_llm`. -/
inductive ConfigError where
  | missingApiKey
  deriving DecidableEq, Repr

/-- `load_llm` (main.py lines 21-31): reads `GROQ_API_KEY` from the
process environment; a missing or falsy (empty) value is fatal
(`st.stop()` halts before any interaction); otherwise the `ChatGroq`
client is constructed with the fixed model name and temperature. -/
def load_llm (env : String → Option String) : Except ConfigError ChatGroq :=
  match env "GROQ_API_KEY" with
  | none => Except.error ConfigError.missingApiKey
  | some api_key =>
    if api_key = "" then Except.error ConfigError.missingApiKey
    else Except.ok { model := "llama-3.1-8b-instant", temperature := 0.7, api_key := api_key }

/-- One UI event of a Streamlit rerun of `main`: either the chat input
(possibly empty / not submitted) or a click of the clear button. -/
inductive UIEvent where
  | chat (input : Option String)
  | clearClicked

/-- One rerun of `main`'s event handling on the session state. -/
def step (llm : Gateway) (messages : Transcript) : UIEvent → Transcript
  | UIEvent.chat input => handleInput llm messages input
  | UIEvent.clearClicked => clearHistory messages

/-- The session state after a sequence of UI events, starting from
`messages` (Streamlit serializes reruns one event at a time). -/
def runEvents (llm : Gateway) (messages : Transcript) (events : List UIEvent) : Transcript :=
  events.foldl (step llm) messages

/-- The transcript after a sequence of submitted chat messages. -/
def runInputs (llm : Gateway) (messages : Transcript) (inputs : List String) : Transcript :=
  inputs.foldl (fun ms p => handleInput llm ms (some p)) messages

/-- A whole session (main.py `main`): `load_llm` runs first; if the
credential check fails the session halts before any input is accepted,
otherwise the events are processed from the empty transcript
(`st.session_state.messages = []` at session start, line 59). -/
def runSession (env : String → Option String) (llm : Gateway)
    (events : List UIEvent) : Except ConfigError Transcript :=
  match load_llm env with
  | Except.error e => Except.error e
  | Except.ok _ => Except.ok (runEvents llm [] events)

/-- The transcript alternates strictly user, assistant, user, assistant, …
with a complete assistant reply for every user turn. -/
def alternatesUA : Transcript → Bool
  | u :: a :: rest =>
    decide (u.role = Role.user) && decide (a.role = Role.assistant) && alternatesUA rest
  | [_] => false
  | [] => true

/-- The Gateway succeeds on every request (a functioning collaborator). -/
def gatewaySucceeds (llm : Gateway) : Prop :=
  ∀ req : List Message, ∃ r : String, llm req = Except.ok r

/-- A stub Gateway that always replies "Hi there". -/
def stubGateway : Gateway := fun _ => Except.ok "Hi there"

/-- A Gateway whose every call fails (the collaborator raises). -/
def failGateway : Gateway := fun _ => Except.error "upstream failure"

/-- An environment with no variables set at all. -/
def emptyEnv : String → Option String := fun _ => none

section Helpers

theorem handleInput_none (llm : Gateway) (ts : Transcript) :
    handleInput llm ts none = ts := rfl

theorem handleInput_empty (llm : Gateway) (ts : Transcript) :
    handleInput llm ts (some "") = ts := by
  simp [handleInput, handleInputTraced]

theorem handleInput_ok (llm : Gateway) (ts : Transcript) (p r : String)
    (hp : p ≠ "") (hr : llm (requestMessages p) = Except.ok r) :
    handleInput llm ts (some p) = ts ++ [⟨Role.user, p⟩, ⟨Role.assistant, r⟩] := by
  simp [handleInput, handleInputTraced, get_ai_response, hp, hr]

theorem handleInput_err (llm : Gateway) (ts : Transcript) (p e : String)
    (hp : p ≠ "") (he : llm (requestMessages p) = Except.error e) :
    handleInput llm ts (some p) = ts ++ [⟨Role.user, p⟩] := by
  simp [handleInput, handleInputTraced, get_ai_response, hp, he]

theorem runInputs_cons (llm : Gateway) (ts : Transcript) (p : String) (rest : List String) :
    runInputs llm ts (p :: rest) = runInputs llm (handleInput llm ts (some p)) rest := rfl

theorem alternatesUA_append : ∀ xs ys : Transcript,
    alternatesUA xs = true → alternatesUA ys = true → alternatesUA (xs ++ ys) = true
  | [], _, _, hy => hy
  | [_], _, hx, _ => by simp [alternatesUA] at hx
  | u :: a :: rest, ys, hx, hy => by
    simp only [alternatesUA, Bool.and_eq_true, decide_eq_true_eq] at hx
    simp only [List.cons_append, alternatesUA, Bool.and_eq_true, decide_eq_true_eq]
    obtain ⟨⟨h1, h2⟩, h3⟩ := hx
    exact ⟨⟨h1, h2⟩, alternatesUA_append rest ys h3 hy⟩

theorem runInputs_length (llm : Gateway) (hok : gatewaySucceeds llm) :
    ∀ (inputs : List String) (ts : Transcript), (∀ p ∈ inputs, p ≠ "") →
      (runInputs llm ts inputs).length = ts.length + 2 * inputs.length := by
  intro inputs
  induction inputs with
  | nil => intro ts _; simp [runInputs]
  | cons p rest ih =>
    intro ts h
    obtain ⟨r, hr⟩ := hok (requestMessages p)
    have hp : p ≠ "" := h p (List.mem_cons_self p rest)
    rw [runInputs_cons, handleInput_ok llm ts p r hp hr,
      ih _ (fun q hq => h q (List.mem_cons_of_mem p hq))]
    simp [List.length_append]
    omega

theorem runInputs_alternates (llm : Gateway) (hok : gatewaySucceeds llm) :
    ∀ (inputs : List String) (ts : Transcript), (∀ p ∈ inputs, p ≠ "") →
      alternatesUA ts = true → alternatesUA (runInputs llm ts inputs) = true := by
  intro inputs
  induction inputs with
  | nil => intro ts _ hts; simpa [runInputs] using hts
  | cons p rest ih =>
    intro ts h hts
    obtain ⟨r, hr⟩ := hok (requestMessages p)
    have hp : p ≠ "" := h p (List.mem_cons_self p rest)
    rw [runInputs_cons, handleInput_ok llm ts p r hp hr]
    refine ih _ (fun q hq => h q (List.mem_cons_of_mem p hq)) ?_
    exact alternatesUA_append ts [⟨Role.user, p⟩, ⟨Role.assistant, r⟩] hts (by rfl)

theorem countByRole_user_handleInput (llm : Gateway) (ts : Transcript) (p : String)
    (hp : p ≠ "") :
    countByRole Role.user (handleInput llm ts (some p)) = countByRole Role.user ts + 1 := by
  cases h : llm (requestMessages p) with
  | ok r =>
    rw [handleInput_ok llm ts p r hp h]
    simp [countByRole, List.filter_append, List.filter]
  | error e =>
    rw [handleInput_err llm ts p e hp h]
    simp [countByRole, List.filter_append, List.filter]

theorem countByRole_user_runInputs (llm : Gateway) :
    ∀ (inputs : List String) (ts : Transcript), (∀ p ∈ inputs, p ≠ "") →
      countByRole Role.user (runInputs llm ts inputs) =
        countByRole Role.user ts + inputs.length := by
  intro inputs
  induction inputs with
  | nil => intro ts _; simp [runInputs]
  | cons p rest ih =>
    intro ts h
    have hp : p ≠ "" := h p (List.mem_cons_self p rest)
    rw [runInputs_cons, ih _ (fun q hq => h q (List.mem_cons_of_mem p hq)),
      countByRole_user_handleInput llm ts p hp]
    simp [List.length_cons]
    omega

theorem step_alternates (llm : Gateway) (hok : gatewaySucceeds llm)
    (ts : Transcript) (e : UIEvent) (hts : alternatesUA ts = true) :
    alternatesUA (step llm ts e) = true := by
  cases e with
  | clearClicked => rfl
  | chat input =>
    cases input with
    | none => simpa [step, handleInput_none] using hts
    | some p =>
      by_cases hp : p = ""
      · subst hp; simpa [step, handleInput_empty] using hts
      · obtain ⟨r, hr⟩ := hok (requestMessages p)
        simp only [step]
        rw [handleInput_ok llm ts p r hp hr]
        exact alternatesUA_append ts [⟨Role.user, p⟩, ⟨Role.assistant, r⟩] hts (by rfl)

theorem runEvents_alternates (llm : Gateway) (hok : gatewaySucceeds llm) :
    ∀ (events : List UIEvent) (ts : Transcript), alternatesUA ts = true →
      alternatesUA (runEvents llm ts events) = true := by
  intro events
  induction events with
  | nil => intro ts hts; simpa [runEvents] using hts
  | cons e rest ih =>
    intro ts hts
    exact ih _ (step_alternates llm hok ts e hts)

end Helpers

/-- C1: for every submission, the request sent to the Gateway is exactly the
two-message list — the fixed system instruction first, the single latest user
message second — and is the same whatever the prior Transcript holds, so it
contains no content from any prior Transcript entry. -/
theorem claim1_request_is_fixed_pair (llm : Gateway) (ts : Transcript) (p : String)
    (hp : p ≠ "") :
    (handleInputTraced llm ts (some p)).2 = [requestMessages p] ∧
    requestMessages p = [Message.system systemInstruction, Message.human p] := by
  refine ⟨?_, rfl⟩
  cases h : llm (requestMessages p) <;>
    simp [handleInputTraced, get_ai_response, hp, h]

theorem claim1_request_is_fixed_pair_witness :
    "Hello" ≠ "" ∧
    ((handleInputTraced stubGateway
        [⟨Role.user, "first question"⟩, ⟨Role.assistant, "first reply"⟩] (some "Hello")).2 =
          [requestMessages "Hello"] ∧
      requestMessages "Hello" = [Message.system systemInstruction, Message.human "Hello"]) :=
  ⟨by decide, claim1_request_is_fixed_pair stubGateway
    [⟨Role.user, "first question"⟩, ⟨Role.assistant, "first reply"⟩] "Hello" (by decide)⟩

/-- C2: for every sequence of N non-empty submitted messages processed with a
Gateway that succeeds on each call, starting from the empty Transcript, the
Transcript length after processing is 2N and the turns alternate user then
assistant. -/
theorem claim2_transcript_length (llm : Gateway) (inputs : List String)
    (hok : gatewaySucceeds llm) (hne : ∀ p ∈ inputs, p ≠ "") :
    (runInputs llm [] inputs).length = 2 * inputs.length ∧
    alternatesUA (runInputs llm [] inputs) = true :=
  ⟨by simpa using runInputs_length llm hok inputs [] hne,
    runInputs_alternates llm hok inputs [] hne rfl⟩

theorem claim2_transcript_length_witness :
    gatewaySucceeds stubGateway ∧ (∀ p ∈ ["What is Lean", "Thanks"], p ≠ "") ∧
    ((runInputs stubGateway [] ["What is Lean", "Thanks"]).length =
        2 * (["What is Lean", "Thanks"] : List String).length ∧
      alternatesUA (runInputs stubGateway [] ["What is Lean", "Thanks"]) = true) :=
  ⟨fun _ => ⟨"Hi there", rfl⟩, by decide,
    claim2_transcript_length stubGateway ["What is Lean", "Thanks"]
      (fun _ => ⟨"Hi there", rfl⟩) (by decide)⟩

/-- C3: after N submissions (non-empty, so the handler actually runs), the
count of Transcript turns whose role is user equals N — for any Gateway,
succeeding or failing, since the user turn is appended before the call. -/
theorem claim3_questions_asked (llm : Gateway) (inputs : List String)
    (hne : ∀ p ∈ inputs, p ≠ "") :
    countByRole Role.user (runInputs llm [] inputs) = inputs.length := by
  have h0 : countByRole Role.user [] = 0 := rfl
  rw [countByRole_user_runInputs llm inputs [] hne, h0, Nat.zero_add]

theorem claim3_questions_asked_witness :
    (∀ p ∈ ["a", "b", "c"], p ≠ "") ∧
    countByRole Role.user (runInputs failGateway [] ["a", "b", "c"]) = 3 :=
  ⟨by decide, claim3_questions_asked failGateway ["a", "b", "c"] (by decide)⟩

/-- C4: if the Gateway call fails for a submitted input, the Transcript after
that turn is exactly the prior Transcript with the user turn appended — so it
contains the user turn, no assistant turn for it, every prior entry unchanged —
and (the prior Transcript being even-length, as in every fully answered state)
its length is odd. -/
theorem claim4_failure_keeps_user_turn (llm : Gateway) (ts : Transcript) (p e : String)
    (hp : p ≠ "") (he : llm (requestMessages p) = Except.error e)
    (hev : Even ts.length) :
    handleInput llm ts (some p) = ts ++ [⟨Role.user, p⟩] ∧
    Odd (handleInput llm ts (some p)).length := by
  have h := handleInput_err llm ts p e hp he
  refine ⟨h, ?_⟩
  rw [h]
  simpa using Even.add_one hev

theorem claim4_failure_keeps_user_turn_witness :
    "Hi" ≠ "" ∧ failGateway (requestMessages "Hi") = Except.error "upstream failure" ∧
    Even ([] : Transcript).length ∧
    (handleInput failGateway [] (some "Hi") = [] ++ [⟨Role.user, "Hi"⟩] ∧
      Odd (handleInput failGateway [] (some "Hi")).length) :=
  ⟨by decide, rfl, ⟨0, rfl⟩,
    claim4_failure_keeps_user_turn failGateway [] "Hi" "upstream failure" (by decide) rfl
      ⟨0, rfl⟩⟩

/-- C5: if GROQ_API_KEY is absent from the environment, the session raises the
fatal configuration signal and halts before accepting any input: whatever UI
events were queued, no Transcript is ever produced (zero turns processed). -/
theorem claim5_missing_key_halts (env : String → Option String) (llm : Gateway)
    (events : List UIEvent) (h : env "GROQ_API_KEY" = none) :
    runSession env llm events = Except.error ConfigError.missingApiKey ∧
    ∀ ts : Transcript, runSession env llm events ≠ Except.ok ts := by
  have hrun : runSession env llm events = Except.error ConfigError.missingApiKey := by
    simp [runSession, load_llm, h]
  refine ⟨hrun, fun ts hts => ?_⟩
  rw [hrun] at hts
  exact Except.noConfusion hts

theorem claim5_missing_key_halts_witness :
    emptyEnv "GROQ_API_KEY" = none ∧
    (runSession emptyEnv stubGateway [UIEvent.chat (some "Hi")] =
        Except.error ConfigError.missingApiKey ∧
      ∀ ts : Transcript,
        runSession emptyEnv stubGateway [UIEvent.chat (some "Hi")] ≠ Except.ok ts) :=
  ⟨rfl, claim5_missing_key_halts emptyEnv stubGateway [UIEvent.chat (some "Hi")] rfl⟩

/-- C6: clearing yields a Transcript of length 0 from every prior state, and
clearing is idempotent: clearing twice equals clearing once. -/
theorem claim6_clear_empties_idempotent (ts : Transcript) :
    (clearHistory ts).length = 0 ∧ clearHistory (clearHistory ts) = clearHistory ts :=
  ⟨rfl, rfl⟩

/-- C7: every Transcript state reachable through the UI event paths under
normal operation (a Gateway that succeeds on each call) strictly alternates
in role starting with user: each user append is followed by exactly one
assistant append. -/
theorem claim7_alternation_invariant (llm : Gateway) (events : List UIEvent)
    (hok : gatewaySucceeds llm) :
    alternatesUA (runEvents llm [] events) = true :=
  runEvents_alternates llm hok events [] rfl

theorem claim7_alternation_invariant_witness :
    gatewaySucceeds stubGateway ∧
    alternatesUA (runEvents stubGateway []
      [UIEvent.chat (some "Hi"), UIEvent.clearClicked, UIEvent.chat (some "Yo"),
        UIEvent.chat none]) = true :=
  ⟨fun _ => ⟨"Hi there", rfl⟩,
    claim7_alternation_invariant stubGateway
      [UIEvent.chat (some "Hi"), UIEvent.clearClicked, UIEvent.chat (some "Yo"),
        UIEvent.chat none] (fun _ => ⟨"Hi there", rfl⟩)⟩

/-- C8: the Transcript is append-only: the input handler always produces the
prior Transcript extended at the end (every previously appended turn kept, in
order, with its role and content), and the only other mutation, clear, resets
the whole sequence to empty — no individual turn is deleted or modified. -/
theorem claim8_append_only (llm : Gateway) (ts : Transcript) (input : Option String) :
    (∃ rest : Transcript, handleInput llm ts input = ts ++ rest) ∧ clearHistory ts = [] := by
  refine ⟨?_, rfl⟩
  cases input with
  | none => exact ⟨[], by simp [handleInput_none]⟩
  | some p =>
    by_cases hp : p = ""
    · subst hp
      exact ⟨[], by simp [handleInput_empty]⟩
    · cases h : llm (requestMessages p) with
      | ok r => exact ⟨[⟨Role.user, p⟩, ⟨Role.assistant, r⟩], handleInput_ok llm ts p r hp h⟩
      | error e => exact ⟨[⟨Role.user, p⟩], handleInput_err llm ts p e hp h⟩

/-- C9: submitting "Hello" against a stub Gateway that returns "Hi there",
starting from the empty Transcript, yields exactly
[{user, "Hello"}, {assistant, "Hi there"}]. -/
theorem claim9_hello_hithere :
    handleInput stubGateway [] (some "Hello") =
      [⟨Role.user, "Hello"⟩, ⟨Role.assistant, "Hi there"⟩] := by
  rfl

/-- C10: an empty submission — the falsy empty string as well as the
no-submission case — is a complete no-op: the Transcript is unchanged and no
Gateway request is issued. -/
theorem claim10_empty_input_noop (llm : Gateway) (ts : Transcript) :
    handleInputTraced llm ts none = (ts, []) ∧
    handleInputTraced llm ts (some "") = (ts, []) :=
  ⟨rfl, by simp [handleInputTraced]⟩
